import Mathlib

/-!
Shallow embedding of `src/OTSR_dev/code/models/SRGAN_model.py`.

Images, feature maps and discriminator score batches are modelled as flat
lists of rationals (`Img`).  Tensor element values produced by the opaque
networks (generator, discriminator, feature extractor, edge detector) and by
the external collaborators (`GANLoss`, `H_Star_Solution`,
`QC_GradientPenaltyLoss`, which live in modules outside this file's source)
are supplied as function-valued fields of an environment record, so every
theorem below quantifies over their behaviour.  `detach()` is a no-op on
values and is therefore dropped; optimizer steps are modelled by counters
(`gSteps`, `dSteps`) recording how often `optimizer_G.step()` /
`optimizer_D.step()` executed, and `requires_grad` flipping on the
discriminator parameters is modelled by the single boolean `dReqGrad`
(the python loops set every parameter uniformly).  Ghost evaluation
counters (`criPixEvals`, `nFEvals`, `nDEvalsG`, `edgeEvals`) increment
exactly where the python calls the corresponding operator, so that
"this sub-network was never evaluated" is expressible.  A python exception
is modelled by returning the state as of the raise point together with
`some message`.
-/

namespace SRGAN

/-- A tensor flattened to its list of rational entries. -/
abbrev Img := List ℚ

/-- The insertion-ordered `self.log_dict` (`collections.OrderedDict`). -/
abbrev LogDict := List (String × ℚ)

/-- Key membership in the ordered dict. -/
def hasKey (d : LogDict) (k : String) : Bool :=
  d.any (fun p => decide (p.1 = k))

/-- `d[k] = v` on an `OrderedDict`: overwrite in place if the key exists,
otherwise append at the end. -/
def setLog (d : LogDict) (k : String) (v : ℚ) : LogDict :=
  if hasKey d k then d.map (fun p => if p.1 = k then (k, v) else p)
  else d ++ [(k, v)]

/-- Conditional log write: the generator sub-losses are written only when
their criterion actually computed a value this step
(`if self.cri_pix: self.log_dict[...] = ...`, lines 250-254). -/
def setLogOpt (d : LogDict) (k : String) (o : Option ℚ) : LogDict :=
  match o with
  | some v => setLog d k v
  | none => d

/-- First-match lookup in the ordered dict. -/
def getLog (d : LogDict) (k : String) : Option ℚ :=
  match d with
  | [] => none
  | p :: t => if p.1 = k then some p.2 else getLog t k

/-- Mean of a score batch, `tensor.mean()`. -/
def mean (l : List ℚ) : ℚ := l.sum / (l.length : ℚ)

/-- `scores - scalar`, broadcasting the scalar (e.g. `pred - torch.mean(q)`). -/
def subScalar (l : List ℚ) (x : ℚ) : List ℚ := l.map (fun a => a - x)

/-- The recognized reconstruction criteria, `nn.L1Loss` / `nn.MSELoss`
(lines 53-56 and 66-69 of the source). -/
inductive Criterion where
  | l1
  | l2
deriving DecidableEq

/-- Value of a criterion with the default mean reduction. -/
def applyCri : Criterion → Img → Img → ℚ
  | Criterion.l1, a, b => mean (List.zipWith (fun x y => |x - y|) a b)
  | Criterion.l2, a, b => mean (List.zipWith (fun x y => (x - y) ^ 2) a b)

/-- The slice of `opt['train']` that `SRGANModel.__init__` reads.
`D_update_ratio` / `D_init_iters` are optional because the python guards
them with truthiness (`x if x else default`). -/
structure SRGANConfig where
  pixel_weight : ℚ
  pixel_criterion : String
  feature_weight : ℚ
  feature_criterion : String
  gan_type : String
  gan_weight : ℚ
  D_update_ratio : Option ℕ
  D_init_iters : Option ℕ
  edge_enhance : Bool
  edge_weight : ℚ
  edge_type : String
  lr_scheme : String
deriving DecidableEq

/-- The training-relevant attributes `__init__` leaves on the model. -/
structure ModelInit where
  cri_pix : Option Criterion
  l_pix_w : ℚ
  cri_fea : Option Criterion
  l_fea_w : ℚ
  gan_type : String
  l_gan_w : ℚ
  D_update_ratio : ℕ
  D_init_iters : ℕ
  edge_on : Bool
  l_edge_w : ℚ
deriving DecidableEq

/-- `if weight > 0: build criterion (may raise NotImplementedError) else None`
(source lines 51-62 for pixel, 64-75 for feature). -/
def mkOptCriterion (w : ℚ) (name : String) : Except String (Option Criterion) :=
  if 0 < w then
    if name = "l1" then Except.ok (some Criterion.l1)
    else if name = "l2" then Except.ok (some Criterion.l2)
    else Except.error "NotImplementedError: Loss type not recognized"
  else Except.ok none

/-- `SRGANModel.__init__` (training branch, lines 49-143): constructs the
criteria, records the weights and cadence parameters, checks the edge-type
and lr-scheme names, raising on unrecognized names.  Construction of the
networks, optimizers and of `GANLoss` itself is opaque here (their code is
outside this source file); `GANLoss(train_opt['gan_type'], 1.0, 0.0)` is
modelled as storing the string. -/
def initModel (cfg : SRGANConfig) : Except String ModelInit :=
  match mkOptCriterion cfg.pixel_weight cfg.pixel_criterion with
  | Except.error e => Except.error e
  | Except.ok cri_pix =>
    match mkOptCriterion cfg.feature_weight cfg.feature_criterion with
    | Except.error e => Except.error e
    | Except.ok cri_fea =>
      if cfg.edge_enhance ∧ cfg.edge_type ≠ "sobel" ∧ cfg.edge_type ≠ "canny" ∧
          cfg.edge_type ≠ "hednet" then
        Except.error "NotImplementedError: Loss type not recognized"
      else if cfg.lr_scheme ≠ "MultiStepLR" ∧ cfg.lr_scheme ≠ "CosineAnnealingLR_Restart" then
        Except.error "NotImplementedError: MultiStepLR learning rate scheme is enough"
      else
        Except.ok
          { cri_pix := cri_pix
            l_pix_w := cfg.pixel_weight
            cri_fea := cri_fea
            l_fea_w := cfg.feature_weight
            gan_type := cfg.gan_type
            l_gan_w := cfg.gan_weight
            D_update_ratio :=
              match cfg.D_update_ratio with
              | none => 1
              | some 0 => 1
              | some n => n
            D_init_iters :=
              match cfg.D_init_iters with
              | none => 0
              | some n => n
            edge_on := cfg.edge_enhance
            l_edge_w := cfg.edge_weight }

/-- The data batch (`feed_data`) together with the opaque collaborators
called from `optimize_parameters`.  `criGan` is `self.cri_gan(scores, flag)`,
`criGanPair` its wgan-qc use on a `[scores, HStar]` pair, `hstar` is
`H_Star_Solution`, `wqcRegul` is `self.WGAN_QC_regul`, and `wqcGamma` /
`wqcK` are `opt['train']['WQC_gamma']` / `opt['train']['WQC_KCoef']`. -/
structure Env where
  var_L : Img
  var_H : Img
  var_ref : Img
  netG : Img → Img
  netF : Img → Img
  netD : Img → List ℚ
  edge : Img → Img
  criGan : List ℚ → Bool → ℚ
  criGanPair : List ℚ × List ℚ → Bool → ℚ
  hstar : Img → Img → ℚ → List ℚ × List ℚ
  wqcRegul : List ℚ → Img → Img → ℚ → ℚ
  wqcGamma : ℚ
  wqcK : ℚ

/-- Mutable model state observed by the claims: optimizer-step counters for
both networks, the discriminator `requires_grad` flag, the cached
`self.fake_H`, `self.log_dict`, the stored `g_total_loss` / `d_total_loss`
values and the ghost evaluation counters. -/
structure MState where
  dReqGrad : Bool
  gSteps : ℕ
  dSteps : ℕ
  fakeH : Img
  logDict : LogDict
  criPixEvals : ℕ
  nFEvals : ℕ
  nDEvalsG : ℕ
  edgeEvals : ℕ
  gTotal : ℚ
  dTotal : ℚ
deriving DecidableEq

/-- State right after `__init__`: parameters trainable, empty
`self.log_dict` (line 143), no forward pass run yet. -/
def initState : MState :=
  { dReqGrad := true
    gSteps := 0
    dSteps := 0
    fakeH := []
    logDict := []
    criPixEvals := 0
    nFEvals := 0
    nDEvalsG := 0
    edgeEvals := 0
    gTotal := 0
    dTotal := 0 }

/-- Edge loss term (lines 190-194): squared difference of the edge maps of
ground truth and fake, mean-reduced, scaled by `l_edge_w`. -/
def edgeLoss (edgeF : Img → Img) (w : ℚ) (varH fakeH : Img) : ℚ :=
  let real_edge := edgeF varH
  let fake_edge := edgeF fakeH
  let edge_diff := List.zipWith (fun a b => a - b) real_edge fake_edge
  w * mean (List.zipWith (fun a b => a * b) edge_diff edge_diff)

/-- Ghost bookkeeping for the operator evaluations of lines 166-175: the
pixel criterion runs iff `cri_pix` is set, `netF` runs twice iff `cri_fea`
is set, and `netD` runs once on `fake_H` unconditionally within the
generator phase. -/
def gUpdateCounters (m : ModelInit) (st : MState) : MState :=
  { st with
    criPixEvals := st.criPixEvals + (if m.cri_pix.isSome then 1 else 0)
    nFEvals := st.nFEvals + (if m.cri_fea.isSome then 2 else 0)
    nDEvalsG := st.nDEvalsG + 1 }

/-- Result of the generator phase when it runs to completion. -/
structure GOut where
  st : MState
  l_g_pix : Option ℚ
  l_g_fea : Option ℚ
  l_g_gan : ℚ
  l_g_total : ℚ

/-- Edge term, backward, gradient clip and `optimizer_G.step()`
(lines 189-200): evaluates the edge operator twice when `edge_enhance` is
set (regardless of `l_edge_w`), accumulates
`l_g_total = l_g_pix + l_g_fea + l_g_gan + l_g_edge`, and bumps the
generator step counter. -/
def finishG (env : Env) (m : ModelInit) (st : MState) (fakeH : Img)
    (lpix lfea : Option ℚ) (lgan : ℚ) : GOut ⊕ (MState × String) :=
  let ledge : ℚ := if m.edge_on then edgeLoss env.edge m.l_edge_w env.var_H fakeH else 0
  let st := if m.edge_on then { st with edgeEvals := st.edgeEvals + 2 } else st
  let total := lpix.getD 0 + lfea.getD 0 + lgan + ledge
  Sum.inl
    { st := { st with gSteps := st.gSteps + 1 }
      l_g_pix := lpix
      l_g_fea := lfea
      l_g_gan := lgan
      l_g_total := total }

/-- Generator phase (lines 166-200), entered only when the cadence gate is
open.  Pixel and feature losses run only when their criterion exists;
`pred_g_fake = netD(fake_H)` always runs; then the adversarial generator
loss branches on `gan_type`.  An unrecognized `gan_type` leaves `l_g_gan`
unassigned, so line 187 (`l_g_total += l_g_gan`) raises
`UnboundLocalError` with the evaluations so far already performed. -/
def gPhase (env : Env) (m : ModelInit) (st0 : MState) (fakeH : Img) :
    GOut ⊕ (MState × String) :=
  let st := gUpdateCounters m st0
  let lpix : Option ℚ := m.cri_pix.map (fun c => m.l_pix_w * applyCri c fakeH env.var_H)
  let lfea : Option ℚ :=
    m.cri_fea.map (fun c => m.l_fea_w * applyCri c (env.netF fakeH) (env.netF env.var_H))
  let pred_g_fake := env.netD fakeH
  if m.gan_type = "gan" then
    finishG env m st fakeH lpix lfea (m.l_gan_w * env.criGan pred_g_fake true)
  else if m.gan_type = "ragan" then
    let pred_d_real := env.netD env.var_ref
    finishG env m { st with nDEvalsG := st.nDEvalsG + 1 } fakeH lpix lfea
      (m.l_gan_w *
        ((env.criGan (subScalar pred_d_real (mean pred_g_fake)) false +
          env.criGan (subScalar pred_g_fake (mean pred_d_real)) true) / 2))
  else if m.gan_type = "wgan-qc" then
    let pred_d_real := env.netD env.var_ref
    finishG env m { st with nDEvalsG := st.nDEvalsG + 1 } fakeH lpix lfea
      (m.l_gan_w * (mean pred_d_real - mean pred_g_fake) ^ 2)
  else
    Sum.inr (st, "UnboundLocalError: local variable referenced before assignment")

/-- Result of the discriminator phase. -/
structure DOut where
  st : MState
  err : Option String
  l_d_real : ℚ
  l_d_fake : ℚ
  pred_d_real : List ℚ
  pred_d_fake : List ℚ

/-- Discriminator phase (lines 203-244): unfreeze the discriminator
parameters, score the reference, branch on `gan_type` for `l_d_total`,
then backward and `optimizer_D.step()`.  The `else` branch raises before
backward or step, leaving the step counter untouched. -/
def dPhase (env : Env) (m : ModelInit) (st0 : MState) (fakeH : Img) : DOut :=
  let st := { st0 with dReqGrad := true }
  let pred_d_real := env.netD env.var_ref
  if m.gan_type = "gan" then
    let pred_d_fake := env.netD fakeH
    let lr := env.criGan pred_d_real true
    let lf := env.criGan pred_d_fake false
    { st := { st with dSteps := st.dSteps + 1, dTotal := lr + lf }
      err := none
      l_d_real := lr
      l_d_fake := lf
      pred_d_real := pred_d_real
      pred_d_fake := pred_d_fake }
  else if m.gan_type = "ragan" then
    let pred_d_fake := env.netD fakeH
    let lr := env.criGan (subScalar pred_d_real (mean pred_d_fake)) true
    let lf := env.criGan (subScalar pred_d_fake (mean pred_d_real)) false
    { st := { st with dSteps := st.dSteps + 1, dTotal := (lr + lf) / 2 }
      err := none
      l_d_real := lr
      l_d_fake := lf
      pred_d_real := pred_d_real
      pred_d_fake := pred_d_fake }
  else if m.gan_type = "wgan-qc" then
    let pred_d_fake := env.netD fakeH
    let hs := env.hstar fakeH env.var_ref env.wqcK
    let reg := env.wqcGamma * env.wqcRegul pred_d_fake env.var_ref fakeH env.wqcK
    let lr := env.criGanPair (pred_d_real, hs.1) true
    let lf := env.criGanPair (pred_d_fake, hs.2) false
    { st := { st with dSteps := st.dSteps + 1, dTotal := reg + (lr + lf) / 2 }
      err := none
      l_d_real := lr
      l_d_fake := lf
      pred_d_real := pred_d_real
      pred_d_fake := pred_d_fake }
  else
    { st := st
      err := some "NotImplementedError: GAN type is not found"
      l_d_real := 0
      l_d_fake := 0
      pred_d_real := pred_d_real
      pred_d_fake := [] }

/-- `SRGANModel.optimize_parameters(step)` (lines 154-260).  Freezes the
discriminator, runs `fake_H = netG(var_L)`, runs the gated generator phase,
then the unconditional discriminator phase, then stores
`d_total_loss` / `g_total_loss` and writes the log entries.  When the gate
is closed, `l_g_total` is still python `int 0`, so line 247
(`l_g_total.detach()`) raises `AttributeError` after `optimizer_D.step()`
has already executed and before any log key is written. -/
def optimize_parameters (env : Env) (m : ModelInit) (st0 : MState) (step : ℕ) :
    MState × Option String :=
  let fakeH := env.netG env.var_L
  let st := { st0 with dReqGrad := false, fakeH := fakeH }
  if step % m.D_update_ratio = 0 ∧ m.D_init_iters < step then
    match gPhase env m st fakeH with
    | Sum.inr p => (p.1, some p.2)
    | Sum.inl g =>
      let d := dPhase env m g.st fakeH
      match d.err with
      | some e => (d.st, some e)
      | none =>
        let st2 := { d.st with gTotal := g.l_g_total }
        let ld := st2.logDict
        let ld := setLogOpt ld "l_g_pix" g.l_g_pix
        let ld := setLogOpt ld "l_g_fea" g.l_g_fea
        let ld := setLog ld "l_g_gan" g.l_g_gan
        let ld := setLog ld "l_d_real" d.l_d_real
        let ld := setLog ld "l_d_fake" d.l_d_fake
        let ld := setLog ld "D_real" (mean d.pred_d_real)
        let ld := setLog ld "D_fake" (mean d.pred_d_fake)
        ({ st2 with logDict := ld }, none)
  else
    let d := dPhase env m st fakeH
    match d.err with
    | some e => (d.st, some e)
    | none => (d.st, some "AttributeError: int object has no attribute detach")

/-- `SRGANModel.back_projection` (lines 268-278) with the two bicubic
`torch.nn.functional.interpolate` calls supplied as opaque functions.
The residual `var_L - interpDown(fake_H)` is upsampled and added scaled by
`opt['back_projection_lamda']`; the final `torch.clamp(self.fake_H, 0, 1)`
on line 278 is not in-place and its result is discarded, so the returned
image is the unclamped sum. -/
def back_projection (interpDown interpUp : Img → Img) (lam : ℚ)
    (var_L fakeH : Img) : Img :=
  let lr_error := List.zipWith (fun a b => a - b) var_L (interpDown fakeH)
  let us_error := interpUp lr_error
  List.zipWith (fun a b => a + b) fakeH (us_error.map (fun e => lam * e))

/-- Spatial-size semantics of `forward_chop` (lines 286-347).  Each of the
four overlapping chops has spatial size `(h/2 + shave) × (w/2 + shave)`
(the `top`/`bottom` and `left`/`right` slices of lines 294-297 all have
that length); the recursive branch re-chops a chop, and in either branch
the output buffer is allocated with the scaled sizes
`(scale*h, scale*w)` (lines 327-337).  The generator itself is opaque and
only its contract of scaling each spatial size by `scale` is used.  `fuel`
bounds the recursion depth: `none` means the given fuel did not suffice,
so a `some` result with `fuel = 1` certifies that the base case was taken
with no recursive call. -/
def forward_chop_dims (fuel scale shave min_size h w : ℕ) : Option (ℕ × ℕ) :=
  match fuel with
  | 0 => none
  | fuel + 1 =>
    if h * w < 4 * min_size then some (scale * h, scale * w)
    else
      match forward_chop_dims fuel scale shave min_size (h / 2 + shave) (w / 2 + shave) with
      | none => none
      | some _ => some (scale * h, scale * w)

/-- `a.squeeze()`: drop every dimension of size 1 from the shape. -/
def squeeze (s : List ℕ) : List ℕ := s.filter (fun d => d != 1)

/-- `a.squeeze().unsqueeze(0)` (line 290): the shape every input tensor is
coerced to before chopping. -/
def chopPrep (s : List ℕ) : List ℕ := 1 :: squeeze s

/-- Shape of the stitched output buffer of `forward_chop` as a function of
the caller's input shape.  After `squeeze().unsqueeze(0)` the tensor is
`1 :: squeeze s`; when `squeeze s = [c, h, w]` the chops are concatenated
along dim 0, every chunk produced from the generator output carries batch
size 1 (a batch of at most `n_GPUs ≤ 4` chops is chunked back into
`n_GPUs` pieces, line 313/316), and the buffer is allocated as
`y_chop[0].new(b, c, scale*h, scale*w)` with `b = 1` (lines 336-337).
Any other rank makes the unpacking `b, c = y_chops[0][0].size()[:-2]`
on line 336 fail, modelled as `none`. -/
def forward_chop_shape (scale : ℕ) (s : List ℕ) : Option (List ℕ) :=
  match squeeze s with
  | [c, h, w] => some [1, c, scale * h, scale * w]
  | _ => none

/-- Stitching slice `top = slice(0, h//2)` crossed with
`left = slice(0, w//2)` (lines 329-342): is output pixel `(r, c)` written
by the top-left quadrant write. -/
def inTL (h w r c : ℕ) : Bool :=
  decide (r < h / 2) && decide (c < w / 2)

/-- `top × right` write, `right = slice(w - w//2, w)`. -/
def inTR (h w r c : ℕ) : Bool :=
  decide (r < h / 2) && (decide (w - w / 2 ≤ c) && decide (c < w))

/-- `bottom × left` write, `bottom = slice(h - h//2, h)`. -/
def inBL (h w r c : ℕ) : Bool :=
  (decide (h - h / 2 ≤ r) && decide (r < h)) && decide (c < w / 2)

/-- `bottom × right` write. -/
def inBR (h w r c : ℕ) : Bool :=
  (decide (h - h / 2 ≤ r) && decide (r < h)) && (decide (w - w / 2 ≤ c) && decide (c < w))

/-- A trivial concrete environment on one-pixel images: every network is
the identity and every external loss collaborator returns 0. -/
def env1 : Env :=
  { var_L := [1/2]
    var_H := [1/2]
    var_ref := [1/2]
    netG := id
    netF := id
    netD := id
    edge := id
    criGan := fun _ _ => 0
    criGanPair := fun _ _ => 0
    hstar := fun _ _ _ => ([], [])
    wqcRegul := fun _ _ _ _ => 0
    wqcGamma := 0
    wqcK := 1 }

/-- Configuration of the C1 scenario: `D_update_ratio = 2`,
`D_init_iters = 0`, standard GAN, pixel loss on, feature and edge off. -/
def cfg1 : SRGANConfig :=
  { pixel_weight := 1
    pixel_criterion := "l1"
    feature_weight := 0
    feature_criterion := "l1"
    gan_type := "gan"
    gan_weight := 1
    D_update_ratio := some 2
    D_init_iters := some 0
    edge_enhance := false
    edge_weight := 0
    edge_type := "sobel"
    lr_scheme := "MultiStepLR" }

/-- The model attributes `initModel cfg1` produces. -/
def m1 : ModelInit :=
  { cri_pix := some Criterion.l1
    l_pix_w := 1
    cri_fea := none
    l_fea_w := 0
    gan_type := "gan"
    l_gan_w := 1
    D_update_ratio := 2
    D_init_iters := 0
    edge_on := false
    l_edge_w := 0 }

/-- Configuration with every loss weight zero but edge enhancement on
(the default `edge_enhance = True` of the constructor signature). -/
def cfg4 : SRGANConfig :=
  { pixel_weight := 0
    pixel_criterion := "l1"
    feature_weight := 0
    feature_criterion := "l1"
    gan_type := "gan"
    gan_weight := 0
    D_update_ratio := some 1
    D_init_iters := some 0
    edge_enhance := true
    edge_weight := 0
    edge_type := "sobel"
    lr_scheme := "MultiStepLR" }

/-- The model attributes `initModel cfg4` produces. -/
def m4 : ModelInit :=
  { cri_pix := none
    l_pix_w := 0
    cri_fea := none
    l_fea_w := 0
    gan_type := "gan"
    l_gan_w := 0
    D_update_ratio := 1
    D_init_iters := 0
    edge_on := true
    l_edge_w := 0 }

/-- Model attributes with an unrecognized `gan_type`. -/
def m7 : ModelInit :=
  { cri_pix := none
    l_pix_w := 0
    cri_fea := none
    l_fea_w := 0
    gan_type := "foo"
    l_gan_w := 1
    D_update_ratio := 1
    D_init_iters := 0
    edge_on := false
    l_edge_w := 0 }

/-- The C1 scenario: starting from a fresh model with `cfg1`
(`D_update_ratio = 2`, `D_init_iters = 0`), call `optimize_parameters`
successively at steps `0, 1, ..., n`, threading the model state;
`scenarioRun n` is the outcome of the call at step `n`. -/
def scenarioRun : ℕ → MState × Option String
  | 0 => optimize_parameters env1 m1 initState 0
  | n + 1 => optimize_parameters env1 m1 (scenarioRun n).1 (n + 1)

/-- Model attributes for the wgan-qc formulation. -/
def m8 : ModelInit :=
  { cri_pix := none
    l_pix_w := 0
    cri_fea := none
    l_fea_w := 0
    gan_type := "wgan-qc"
    l_gan_w := 3
    D_update_ratio := 1
    D_init_iters := 0
    edge_on := false
    l_edge_w := 0 }

/-! ### Helper lemmas about the ordered log dict -/

theorem getLog_replace_self (d : LogDict) (k : String) (v : ℚ)
    (h : hasKey d k = true) :
    getLog (d.map (fun p => if p.1 = k then (k, v) else p)) k = some v := by
  induction d with
  | nil => simp [hasKey] at h
  | cons p t ih =>
    by_cases hp : p.1 = k
    · simp [getLog, hp]
    · simp only [List.map_cons, getLog, hp, if_false, if_neg hp]
      apply ih
      simp [hasKey, hp] at h
      simpa [hasKey] using h

theorem getLog_append_self (d : LogDict) (k : String) (v : ℚ)
    (h : hasKey d k = false) :
    getLog (d ++ [(k, v)]) k = some v := by
  induction d with
  | nil => simp [getLog]
  | cons p t ih =>
    have hp : ¬ p.1 = k := by
      intro hk
      simp [hasKey, hk] at h
    simp only [List.cons_append, getLog, if_neg hp]
    apply ih
    simp [hasKey, hp] at h
    simpa [hasKey] using h

/-- Writing key `k` makes `k` readable with the written value. -/
theorem getLog_setLog_self (d : LogDict) (k : String) (v : ℚ) :
    getLog (setLog d k v) k = some v := by
  unfold setLog
  cases h : hasKey d k
  · simp only [Bool.false_eq_true, if_false]
    exact getLog_append_self d k v h
  · simp only [if_true]
    exact getLog_replace_self d k v h

theorem getLog_replace_ne (d : LogDict) (k q : String) (v : ℚ) (hne : k ≠ q) :
    getLog (d.map (fun p => if p.1 = q then (q, v) else p)) k = getLog d k := by
  induction d with
  | nil => rfl
  | cons p t ih =>
    by_cases hp : p.1 = q
    · have h1 : ¬ q = k := fun h => hne h.symm
      have h2 : ¬ p.1 = k := by rw [hp]; exact h1
      simp [getLog, hp, h1, h2, ih]
    · by_cases hk : p.1 = k
      · simp [getLog, hp, hk, hne]
      · simp [getLog, hp, hk, ih]

theorem getLog_append_ne (d : LogDict) (k q : String) (v : ℚ) (hne : k ≠ q) :
    getLog (d ++ [(q, v)]) k = getLog d k := by
  induction d with
  | nil =>
    have h1 : ¬ q = k := fun h => hne h.symm
    simp [getLog, h1]
  | cons p t ih =>
    by_cases hk : p.1 = k <;> simp [getLog, hk, ih]

/-- Writing key `q` leaves every other key unchanged. -/
theorem getLog_setLog_ne (d : LogDict) (k q : String) (v : ℚ) (hne : k ≠ q) :
    getLog (setLog d q v) k = getLog d k := by
  unfold setLog
  cases h : hasKey d q
  · simp only [Bool.false_eq_true, if_false]
    exact getLog_append_ne d k q v hne
  · simp only [if_true]
    exact getLog_replace_ne d k q v hne

/-- A conditional write to key `q` also leaves every other key unchanged. -/
theorem getLog_setLogOpt_ne (d : LogDict) (k q : String) (o : Option ℚ) (hne : k ≠ q) :
    getLog (setLogOpt d q o) k = getLog d k := by
  cases o
  · rfl
  · exact getLog_setLog_ne d k q _ hne

/-- A conditional write with no value is the identity. -/
theorem setLogOpt_none (d : LogDict) (k : String) : setLogOpt d k none = d := rfl

/-- A key is present exactly when lookup succeeds. -/
theorem hasKey_getLog (d : LogDict) (k : String) :
    hasKey d k = (getLog d k).isSome := by
  induction d with
  | nil => rfl
  | cons p t ih =>
    by_cases hp : p.1 = k
    · simp [hasKey, getLog, hp]
    · simp only [getLog, if_neg hp]
      rw [← ih]
      simp [hasKey, hp]

/-! ### Helper lemmas about the discriminator and generator phases -/

/-- With a recognized `gan_type`, the discriminator phase completes:
no error, one `optimizer_D.step()`, the log untouched, the parameters
unfrozen, and the generator step counter untouched. -/
theorem dPhase_known (env : Env) (m : ModelInit) (st : MState) (f : Img)
    (h : m.gan_type = "gan" ∨ m.gan_type = "ragan" ∨ m.gan_type = "wgan-qc") :
    (dPhase env m st f).err = none ∧
    (dPhase env m st f).st.dSteps = st.dSteps + 1 ∧
    (dPhase env m st f).st.logDict = st.logDict ∧
    (dPhase env m st f).st.dReqGrad = true ∧
    (dPhase env m st f).st.gSteps = st.gSteps ∧
    (dPhase env m st f).st.criPixEvals = st.criPixEvals ∧
    (dPhase env m st f).st.nFEvals = st.nFEvals ∧
    (dPhase env m st f).st.nDEvalsG = st.nDEvalsG ∧
    (dPhase env m st f).st.edgeEvals = st.edgeEvals := by
  rcases h with h | h | h <;> simp +decide [dPhase, h]

/-- With an unrecognized `gan_type`, the discriminator phase raises before
`optimizer_D.step()`: error set, step counter unchanged. -/
theorem dPhase_unknown (env : Env) (m : ModelInit) (st : MState) (f : Img)
    (h1 : m.gan_type ≠ "gan") (h2 : m.gan_type ≠ "ragan") (h3 : m.gan_type ≠ "wgan-qc") :
    (dPhase env m st f).err.isSome = true ∧
    (dPhase env m st f).st.dSteps = st.dSteps ∧
    (dPhase env m st f).st.logDict = st.logDict := by
  simp [dPhase, h1, h2, h3]

/-- The discriminator phase always leaves the parameters unfrozen. -/
theorem dPhase_dReqGrad (env : Env) (m : ModelInit) (st : MState) (f : Img) :
    (dPhase env m st f).st.dReqGrad = true := by
  unfold dPhase
  split
  · rfl
  · split
    · rfl
    · split
      · rfl
      · rfl

/-- Under wgan-qc the generator phase completes and computes
`l_g_gan = l_gan_w * (mean(D(var_ref)) - mean(D(fake)))^2` (line 185),
leaving the log untouched. -/
theorem gPhase_wganqc (env : Env) (m : ModelInit) (st0 : MState) (f : Img)
    (hg : m.gan_type = "wgan-qc") :
    ∃ g, gPhase env m st0 f = Sum.inl g ∧
      g.l_g_gan = m.l_gan_w * (mean (env.netD env.var_ref) - mean (env.netD f)) ^ 2 ∧
      g.st.logDict = st0.logDict := by
  unfold gPhase
  rw [hg]
  rw [if_neg (by decide), if_neg (by decide), if_pos rfl]
  unfold finishG
  refine ⟨_, rfl, rfl, ?_⟩
  by_cases he : m.edge_on <;> simp [he, gUpdateCounters]

/-- `finishG` always succeeds and bumps exactly the edge counter
(by 2 when `edge_enhance` is set, regardless of the edge weight), carrying
through the sub-loss values and their sum with the conditional edge term. -/
theorem finishG_spec (env : Env) (m : ModelInit) (st : MState) (f : Img)
    (lpix lfea : Option ℚ) (lgan : ℚ) :
    ∃ g, finishG env m st f lpix lfea lgan = Sum.inl g ∧
      g.st.logDict = st.logDict ∧
      g.st.criPixEvals = st.criPixEvals ∧
      g.st.nFEvals = st.nFEvals ∧
      g.st.nDEvalsG = st.nDEvalsG ∧
      g.st.edgeEvals = st.edgeEvals + (if m.edge_on then 2 else 0) ∧
      g.l_g_pix = lpix ∧ g.l_g_fea = lfea ∧ g.l_g_gan = lgan ∧
      g.l_g_total = lpix.getD 0 + lfea.getD 0 + lgan +
        (if m.edge_on then edgeLoss env.edge m.l_edge_w env.var_H f else 0) := by
  unfold finishG
  by_cases he : m.edge_on <;>
    exact ⟨_, rfl, by simp [he], by simp [he], by simp [he], by simp [he], by simp [he],
      by simp [he], by simp [he], by simp [he], by simp [he]⟩

/-- With any recognized `gan_type`, the generator phase completes and:
the log is untouched, the pixel criterion runs iff configured, the feature
extractor runs (twice) iff configured, the discriminator is evaluated at
least once, the edge operator runs (twice) iff `edge_enhance` is set, the
absent criteria produce no sub-loss value, a zero adversarial weight gives
`l_g_gan = 0`, and with all four terms disabled or zero-weighted
`l_g_total = 0`. -/
theorem gPhase_completes (env : Env) (m : ModelInit) (st0 : MState) (f : Img)
    (hk : m.gan_type = "gan" ∨ m.gan_type = "ragan" ∨ m.gan_type = "wgan-qc") :
    ∃ g, gPhase env m st0 f = Sum.inl g ∧
      g.st.logDict = st0.logDict ∧
      g.st.criPixEvals = st0.criPixEvals + (if m.cri_pix.isSome then 1 else 0) ∧
      g.st.nFEvals = st0.nFEvals + (if m.cri_fea.isSome then 2 else 0) ∧
      st0.nDEvalsG + 1 ≤ g.st.nDEvalsG ∧
      g.st.edgeEvals = st0.edgeEvals + (if m.edge_on then 2 else 0) ∧
      (m.cri_pix = none → g.l_g_pix = none) ∧
      (m.cri_fea = none → g.l_g_fea = none) ∧
      (m.l_gan_w = 0 → g.l_g_gan = 0) ∧
      (m.cri_pix = none → m.cri_fea = none → m.l_gan_w = 0 → m.l_edge_w = 0 →
        g.l_g_total = 0) := by
  rcases hk with hg | hg | hg
  · unfold gPhase
    rw [hg, if_pos rfl]
    obtain ⟨g, hfin, hlog, hcp, hnf, hnd, hee, hpx, hfe, hgn, htot⟩ :=
      finishG_spec env m (gUpdateCounters m st0) f _ _ _
    refine ⟨g, hfin, ?_, ?_, ?_, ?_, ?_, ?_, ?_, ?_, ?_⟩
    · simpa [gUpdateCounters] using hlog
    · simpa [gUpdateCounters] using hcp
    · simpa [gUpdateCounters] using hnf
    · simp [gUpdateCounters, hnd]
    · simpa [gUpdateCounters] using hee
    · intro h
      rw [hpx, h]
      rfl
    · intro h
      rw [hfe, h]
      rfl
    · intro h
      rw [hgn, h, zero_mul]
    · intro ha hb hc hd
      rw [htot, ha, hb, hc, hd]
      simp [edgeLoss]
  · unfold gPhase
    rw [hg, if_neg (by decide), if_pos rfl]
    obtain ⟨g, hfin, hlog, hcp, hnf, hnd, hee, hpx, hfe, hgn, htot⟩ :=
      finishG_spec env m
        { gUpdateCounters m st0 with nDEvalsG := (gUpdateCounters m st0).nDEvalsG + 1 }
        f _ _ _
    refine ⟨g, hfin, ?_, ?_, ?_, ?_, ?_, ?_, ?_, ?_, ?_⟩
    · simpa [gUpdateCounters] using hlog
    · simpa [gUpdateCounters] using hcp
    · simpa [gUpdateCounters] using hnf
    · rw [hnd]
      simp [gUpdateCounters]
    · simpa [gUpdateCounters] using hee
    · intro h
      rw [hpx, h]
      rfl
    · intro h
      rw [hfe, h]
      rfl
    · intro h
      rw [hgn, h, zero_mul]
    · intro ha hb hc hd
      rw [htot, ha, hb, hc, hd]
      simp [edgeLoss]
  · unfold gPhase
    rw [hg, if_neg (by decide), if_neg (by decide), if_pos rfl]
    obtain ⟨g, hfin, hlog, hcp, hnf, hnd, hee, hpx, hfe, hgn, htot⟩ :=
      finishG_spec env m
        { gUpdateCounters m st0 with nDEvalsG := (gUpdateCounters m st0).nDEvalsG + 1 }
        f _ _ _
    refine ⟨g, hfin, ?_, ?_, ?_, ?_, ?_, ?_, ?_, ?_, ?_⟩
    · simpa [gUpdateCounters] using hlog
    · simpa [gUpdateCounters] using hcp
    · simpa [gUpdateCounters] using hnf
    · rw [hnd]
      simp [gUpdateCounters]
    · simpa [gUpdateCounters] using hee
    · intro h
      rw [hpx, h]
      rfl
    · intro h
      rw [hfe, h]
      rfl
    · intro h
      rw [hgn, h, zero_mul]
    · intro ha hb hc hd
      rw [htot, ha, hb, hc, hd]
      simp [edgeLoss]

/-- With an unrecognized `gan_type` the generator phase raises
`UnboundLocalError` at `l_g_total += l_g_gan` without reaching
`optimizer_G.step()`. -/
theorem gPhase_unknown (env : Env) (m : ModelInit) (st0 : MState) (f : Img)
    (h1 : m.gan_type ≠ "gan") (h2 : m.gan_type ≠ "ragan") (h3 : m.gan_type ≠ "wgan-qc") :
    gPhase env m st0 f =
      Sum.inr (gUpdateCounters m st0,
        "UnboundLocalError: local variable referenced before assignment") := by
  simp [gPhase, h1, h2, h3]

/-- `m1` and `m4` are exactly what construction from `cfg1` / `cfg4`
produces. -/
theorem initModel_concrete :
    initModel cfg1 = Except.ok m1 ∧ initModel cfg4 = Except.ok m4 := by
  exact ⟨rfl, rfl⟩

/-! ### Claim theorems -/

/-- C1 counterexample: with `D_update_ratio = 2` and `D_init_iters = 0`,
the call at `step = 0` performs no generator update at all (the gate needs
`step > D_init_iters`, and `0 > 0` is false) and logs no `l_g_gan`,
contradicting the claim that the generator updates at steps 0 and 2. -/
theorem c1_counterexample :
    (optimize_parameters env1 m1 initState 0).1.gSteps = 0 ∧
    hasKey (optimize_parameters env1 m1 initState 0).1.logDict "l_g_gan" = false := by
  decide

/-- C1 (amended): with `D_update_ratio = 2`, `D_init_iters = 0`, running
`optimize_parameters` at steps 0, 1, 2, 3 updates the generator exactly at
step 2 (logging `l_g_gan` there), while `optimizer_D.step()` executes at
every one of the four steps (the gated-off calls raise only after the
discriminator update). -/
theorem c1_amended :
    (scenarioRun 0).1.gSteps = 0 ∧ (scenarioRun 1).1.gSteps = 0 ∧
    (scenarioRun 2).1.gSteps = 1 ∧ (scenarioRun 3).1.gSteps = 1 ∧
    (scenarioRun 0).1.dSteps = 1 ∧ (scenarioRun 1).1.dSteps = 2 ∧
    (scenarioRun 2).1.dSteps = 3 ∧ (scenarioRun 3).1.dSteps = 4 ∧
    hasKey (scenarioRun 2).1.logDict "l_g_gan" = true ∧
    hasKey (scenarioRun 1).1.logDict "l_g_gan" = false := by
  decide

/-- C2 counterexample: at a gated-off step (`step = 1`, ratio 2) the call
does not complete — it raises `AttributeError` because `l_g_total` is still
the python integer `0` when line 247 calls `.detach()` on it — and the log
record of a fresh model contains no `l_d_real` key afterwards, contradicting
both "completes" and "always contains the discriminator-side keys". -/
theorem c2_counterexample :
    (optimize_parameters env1 m1 initState 1).2.isSome = true ∧
    hasKey (optimize_parameters env1 m1 initState 1).1.logDict "l_d_real" = false := by
  decide

/-- C3: `back_projection` at the failing input `var_L = [2]`,
`fake_H = [0]`, identity interpolation, `lambda = 1`.  The update is the
claimed `fake_H + lambda * upsampled residual = [2]`, but no clamping
happens (line 278 discards the result of `torch.clamp`), so the output
pixel 2 lies outside `[0, 1]`. -/
theorem c3_eval :
    back_projection id id 1 [2] [0] = [2] ∧ (1 : ℚ) < 2 := by
  refine ⟨?_, by norm_num⟩
  simp [back_projection]

/-- C5 counterexample: for the positive scaled sizes `h = w = 1` the four
written regions are all empty, so output pixel `(0,0)` is written by none
of them — the union does not cover the buffer, contradicting the claim for
every positive `h`, `w`. -/
theorem c5_counterexample :
    (inTL 1 1 0 0 || inTR 1 1 0 0 || inBL 1 1 0 0 || inBR 1 1 0 0) = false ∧
    0 < 1 := by
  decide

/-- C5 (amended): for every `h`, `w` and pixel `(r, c)` the four written
regions are pairwise disjoint; when `h` and `w` are both even, every
in-range pixel is written by (exactly) one region; when `h` is odd, every
pixel of the middle row band `[h/2, h - h/2)` (the single row `h/2`) is
written by no region, and symmetrically for the middle column when `w` is
odd. -/
theorem c5_amended (h w r c : ℕ) :
    ((inTL h w r c && inTR h w r c) = false ∧
      (inTL h w r c && inBL h w r c) = false ∧
      (inTL h w r c && inBR h w r c) = false ∧
      (inTR h w r c && inBL h w r c) = false ∧
      (inTR h w r c && inBR h w r c) = false ∧
      (inBL h w r c && inBR h w r c) = false) ∧
    (h % 2 = 0 → w % 2 = 0 → r < h → c < w →
      (inTL h w r c || inTR h w r c || inBL h w r c || inBR h w r c) = true) ∧
    (h % 2 = 1 → h / 2 ≤ r → r < h - h / 2 →
      (inTL h w r c || inTR h w r c || inBL h w r c || inBR h w r c) = false) ∧
    (w % 2 = 1 → w / 2 ≤ c → c < w - w / 2 →
      (inTL h w r c || inTR h w r c || inBL h w r c || inBR h w r c) = false) := by
  unfold inTL inTR inBL inBR
  refine ⟨⟨?_, ?_, ?_, ?_, ?_, ?_⟩, ?_, ?_, ?_⟩ <;> simp <;> omega

/-- C5 witness: the amended tiling statement exercised concretely — exact
cover of pixel `(1, 0)` in the even 2×2 buffer, disjointness there, and the
unwritten middle-row pixel `(1, 2)` of the odd-height 3×4 buffer. -/
theorem c5_witness :
    (inTL 2 2 1 0 || inTR 2 2 1 0 || inBL 2 2 1 0 || inBR 2 2 1 0) = true ∧
    (inTL 2 2 1 0 && inTR 2 2 1 0) = false ∧
    (inTL 3 4 1 2 || inTR 3 4 1 2 || inBL 3 4 1 2 || inBR 3 4 1 2) = false :=
  ⟨(c5_amended 2 2 1 0).2.1 (by decide) (by decide) (by decide) (by decide),
    (c5_amended 2 2 1 0).1.1,
    (c5_amended 3 4 1 2).2.2.1 (by decide) (by decide) (by decide)⟩

/-- C6: for a 320×320 input with `shave = 10` and `min_size = 40000`,
`forward_chop` takes the base case — fuel 1 yields a result, so no
recursive call is needed, because `320 * 320 = 102400 < 160000 = 4 * 40000`
— and the output buffer has spatial size `scale * 320` on each axis. -/
theorem c6_base_case (scale : ℕ) :
    forward_chop_dims 1 scale 10 40000 320 320 = some (scale * 320, scale * 320) ∧
    320 * 320 < 4 * 40000 := by
  constructor
  · rfl
  · decide

/-- C10: `forward_chop` squeezes every singleton dimension and then
prepends a batch dimension of size 1 (line 290), so the tensor actually
tiled always has batch size exactly 1; and whenever the stitching completes
(the squeezed shape is the 3-dimensional `[c, h, w]` of a single image),
the returned buffer also has batch size exactly 1. -/
theorem c10_batch_one (scale : ℕ) (s : List ℕ) :
    (chopPrep s).head? = some 1 ∧
    ∀ r, forward_chop_shape scale s = some r → r.head? = some 1 := by
  constructor
  · rfl
  · intro r h
    unfold forward_chop_shape at h
    split at h
    · cases h
      rfl
    · cases h

/-- C10 witness: at the concrete caller shape `[1, 3, 8, 8]` and
`scale = 2`, the prepped tensor and the returned buffer `[1, 3, 16, 16]`
both have batch size 1. -/
theorem c10_witness :
    (chopPrep [1, 3, 8, 8]).head? = some 1 ∧
    forward_chop_shape 2 [1, 3, 8, 8] = some [1, 3, 16, 16] ∧
    [1, 3, 16, 16].head? = some (1 : ℕ) :=
  ⟨(c10_batch_one 2 [1, 3, 8, 8]).1, by decide,
    (c10_batch_one 2 [1, 3, 8, 8]).2 [1, 3, 16, 16] (by decide)⟩

/-- C2 (amended): for every step where `step mod D_update_ratio ≠ 0` or
`step ≤ D_init_iters` (and a recognized `gan_type`), `optimize_parameters`
does not complete: it raises `AttributeError` at line 247 (`l_g_total` is
still the python int 0) after `optimizer_D.step()` has already run, and it
writes no log key at all — the log dict, created once at construction
(line 143) and persistent across calls, is exactly what it was before the
call, retaining whatever keys earlier calls wrote. -/
theorem c2_amended (env : Env) (m : ModelInit) (st : MState) (step : ℕ)
    (hknown : m.gan_type = "gan" ∨ m.gan_type = "ragan" ∨ m.gan_type = "wgan-qc")
    (hgate : ¬(step % m.D_update_ratio = 0 ∧ m.D_init_iters < step)) :
    (optimize_parameters env m st step).2.isSome = true ∧
    (optimize_parameters env m st step).1.dSteps = st.dSteps + 1 ∧
    (optimize_parameters env m st step).1.logDict = st.logDict := by
  have hd := dPhase_known env m
    { st with dReqGrad := false, fakeH := env.netG env.var_L } (env.netG env.var_L) hknown
  simp only [optimize_parameters]
  rw [if_neg hgate]
  simp only [hd.1]
  refine ⟨rfl, ?_, ?_⟩
  · rw [hd.2.1]
  · rw [hd.2.2.1]

/-- C2 witness: the amended statement at the concrete gated-off call
`step = 3` with `D_update_ratio = 2` from a fresh model. -/
theorem c2_witness :
    (optimize_parameters env1 m1 initState 3).2.isSome = true ∧
    (optimize_parameters env1 m1 initState 3).1.dSteps = initState.dSteps + 1 ∧
    (optimize_parameters env1 m1 initState 3).1.logDict = initState.logDict :=
  c2_amended env1 m1 initState 3 (Or.inl rfl) (by decide)

/-- C7: with a `gan_type` that is none of `gan`, `ragan`, `wgan-qc`,
`optimize_parameters` raises before any `optimizer_D.step()` executes
(on gated-on steps the generator phase already raises `UnboundLocalError`
at `l_g_total += l_g_gan`; otherwise the explicit `raise NotImplementedError`
of line 241 fires before `l_d_total.backward()` and the step), so the
discriminator step counter — and hence its parameters — is unchanged. -/
theorem c7_unknown_gan_type (env : Env) (m : ModelInit) (st : MState) (step : ℕ)
    (h1 : m.gan_type ≠ "gan") (h2 : m.gan_type ≠ "ragan") (h3 : m.gan_type ≠ "wgan-qc") :
    (optimize_parameters env m st step).2.isSome = true ∧
    (optimize_parameters env m st step).1.dSteps = st.dSteps := by
  simp only [optimize_parameters]
  by_cases hgate : step % m.D_update_ratio = 0 ∧ m.D_init_iters < step
  · rw [if_pos hgate, gPhase_unknown env m _ _ h1 h2 h3]
    simp [gUpdateCounters]
  · rw [if_neg hgate]
    have hd := dPhase_unknown env m
      { st with dReqGrad := false, fakeH := env.netG env.var_L } (env.netG env.var_L) h1 h2 h3
    cases herr : (dPhase env m
        { st with dReqGrad := false, fakeH := env.netG env.var_L } (env.netG env.var_L)).err with
    | none => rw [herr] at hd; simp at hd
    | some e =>
      simp only [herr]
      refine ⟨rfl, ?_⟩
      have := hd.2.1
      simpa using this

/-- C7 witness: the statement at the concrete unrecognized `gan_type`
`"foo"` (model `m7`), step 1, from a fresh state. -/
theorem c7_witness :
    (optimize_parameters env1 m7 initState 1).2.isSome = true ∧
    (optimize_parameters env1 m7 initState 1).1.dSteps = initState.dSteps :=
  c7_unknown_gan_type env1 m7 initState 1 (by decide) (by decide) (by decide)

/-- C8: under the wgan-qc formulation, on every gated-on step the call
completes and the logged adversarial generator loss equals
`gan_weight * (mean(D(ref)) - mean(D(netG(var_L))))^2` — the square of the
difference between the mean discriminator score on the (gradient-detached,
value-identical) reference batch and on the fake batch (lines 183-185). -/
theorem c8_wgan_qc_gen_loss (env : Env) (m : ModelInit) (st : MState) (step : ℕ)
    (hg : m.gan_type = "wgan-qc")
    (h1 : step % m.D_update_ratio = 0) (h2 : m.D_init_iters < step) :
    (optimize_parameters env m st step).2 = none ∧
    getLog (optimize_parameters env m st step).1.logDict "l_g_gan" =
      some (m.l_gan_w *
        (mean (env.netD env.var_ref) - mean (env.netD (env.netG env.var_L))) ^ 2) := by
  obtain ⟨g, hgp, hlgan, hlog⟩ := gPhase_wganqc env m
    { st with dReqGrad := false, fakeH := env.netG env.var_L } (env.netG env.var_L) hg
  have hd := dPhase_known env m g.st (env.netG env.var_L) (Or.inr (Or.inr hg))
  simp only [optimize_parameters]
  rw [if_pos ⟨h1, h2⟩]
  simp only [hgp, hd.1]
  refine ⟨trivial, ?_⟩
  rw [getLog_setLog_ne _ _ _ _ (by decide), getLog_setLog_ne _ _ _ _ (by decide),
    getLog_setLog_ne _ _ _ _ (by decide), getLog_setLog_ne _ _ _ _ (by decide),
    getLog_setLog_self, hlgan]

/-- C8 witness: the statement at the concrete wgan-qc model `m8`, step 1,
fresh state, with the identity/zero environment. -/
theorem c8_witness :
    (optimize_parameters env1 m8 initState 1).2 = none ∧
    getLog (optimize_parameters env1 m8 initState 1).1.logDict "l_g_gan" =
      some (m8.l_gan_w *
        (mean (env1.netD env1.var_ref) - mean (env1.netD (env1.netG env1.var_L))) ^ 2) :=
  c8_wgan_qc_gen_loss env1 m8 initState 1 rfl (by decide) (by decide)

/-- C9: whenever `optimize_parameters` returns without raising, every
discriminator parameter has `requires_grad = True` again: the freeze of
lines 157-158 is undone unconditionally by lines 203-204 before the
discriminator phase, so completed calls never leave the discriminator
frozen. -/
theorem c9_unfreeze (env : Env) (m : ModelInit) (st : MState) (step : ℕ)
    (h : (optimize_parameters env m st step).2 = none) :
    (optimize_parameters env m st step).1.dReqGrad = true := by
  simp only [optimize_parameters] at h ⊢
  by_cases hgate : step % m.D_update_ratio = 0 ∧ m.D_init_iters < step
  · rw [if_pos hgate] at h ⊢
    cases hgp : gPhase env m
        { st with dReqGrad := false, fakeH := env.netG env.var_L } (env.netG env.var_L) with
    | inr p => rw [hgp] at h; simp at h
    | inl g =>
      rw [hgp] at h
      dsimp only at h ⊢
      cases herr : (dPhase env m g.st (env.netG env.var_L)).err with
      | some e => rw [herr] at h; simp at h
      | none =>
        dsimp only
        exact dPhase_dReqGrad env m g.st (env.netG env.var_L)
  · rw [if_neg hgate] at h
    cases herr : (dPhase env m
        { st with dReqGrad := false, fakeH := env.netG env.var_L } (env.netG env.var_L)).err with
    | some e => simp only [herr] at h; simp at h
    | none => simp only [herr] at h; simp at h

/-- C9 witness: the statement at the completing call `step = 2` (gate open,
recognized `gan_type`) of the C1 scenario. -/
theorem c9_witness :
    (optimize_parameters env1 m1 initState 2).1.dReqGrad = true :=
  c9_unfreeze env1 m1 initState 2 (by decide)

/-- C4 counterexample: with every loss weight zero (`m4`, built from
`cfg4` with `gan_weight = 0`, `edge_weight = 0`, `edge_enhance = True`),
a gated-on call still logs the `l_g_gan` key (the claim says a zero
adversarial weight removes it), still evaluates the edge operator twice
and the discriminator once inside the generator phase — so neither the
adversarial nor the edge forward computation is skipped. -/
theorem c4_counterexample :
    (optimize_parameters env1 m4 initState 1).2 = none ∧
    hasKey (optimize_parameters env1 m4 initState 1).1.logDict "l_g_gan" = true ∧
    (optimize_parameters env1 m4 initState 1).1.edgeEvals = 2 ∧
    (optimize_parameters env1 m4 initState 1).1.nDEvalsG = 1 := by
  decide

/-- C4 (amended): loss-term disabling is per-term but only half of the
claim survives.  On every gated-on step under any recognized formulation:
a zero (or negative) pixel weight leaves the pixel criterion unset at
construction, so it is never evaluated and `l_g_pix` is never written;
likewise a zero feature weight means the feature extractor never runs and
`l_g_fea` is never written.  The adversarial term is NOT disabled by a
zero `gan_weight`: the discriminator is still evaluated inside the
generator phase and `l_g_gan` is always logged (with value 0 when the
weight is 0); the edge term is gated by the `edge_enhance` flag, not by
`edge_weight`, so the edge operator still runs twice whenever that flag is
set; `l_g_edge` is never logged in any configuration; and with all four
terms disabled or zero-weighted the zero-weight terms contribute nothing:
`l_g_total = 0`. -/
theorem c4_amended (env : Env) (cfg : SRGANConfig) (m : ModelInit) (st : MState) (step : ℕ)
    (hinit : initModel cfg = Except.ok m)
    (hknown : cfg.gan_type = "gan" ∨ cfg.gan_type = "ragan" ∨ cfg.gan_type = "wgan-qc")
    (h1 : step % m.D_update_ratio = 0) (h2 : m.D_init_iters < step) :
    (optimize_parameters env m st step).2 = none ∧
    (cfg.pixel_weight ≤ 0 →
      (optimize_parameters env m st step).1.criPixEvals = st.criPixEvals ∧
      getLog (optimize_parameters env m st step).1.logDict "l_g_pix" =
        getLog st.logDict "l_g_pix") ∧
    (cfg.feature_weight ≤ 0 →
      (optimize_parameters env m st step).1.nFEvals = st.nFEvals ∧
      getLog (optimize_parameters env m st step).1.logDict "l_g_fea" =
        getLog st.logDict "l_g_fea") ∧
    st.nDEvalsG + 1 ≤ (optimize_parameters env m st step).1.nDEvalsG ∧
    hasKey (optimize_parameters env m st step).1.logDict "l_g_gan" = true ∧
    (cfg.gan_weight = 0 →
      getLog (optimize_parameters env m st step).1.logDict "l_g_gan" = some 0) ∧
    (cfg.edge_enhance = true →
      (optimize_parameters env m st step).1.edgeEvals = st.edgeEvals + 2) ∧
    getLog (optimize_parameters env m st step).1.logDict "l_g_edge" =
      getLog st.logDict "l_g_edge" ∧
    (cfg.pixel_weight ≤ 0 → cfg.feature_weight ≤ 0 → cfg.gan_weight = 0 →
      cfg.edge_weight = 0 → (optimize_parameters env m st step).1.gTotal = 0) := by
  cases hp : mkOptCriterion cfg.pixel_weight cfg.pixel_criterion with
  | error e =>
    unfold initModel at hinit
    rw [hp] at hinit
    dsimp only at hinit
    exact Except.noConfusion hinit
  | ok cp =>
  cases hf : mkOptCriterion cfg.feature_weight cfg.feature_criterion with
  | error e =>
    unfold initModel at hinit
    rw [hp] at hinit
    dsimp only at hinit
    rw [hf] at hinit
    dsimp only at hinit
    exact Except.noConfusion hinit
  | ok cf =>
  unfold initModel at hinit
  rw [hp] at hinit
  dsimp only at hinit
  rw [hf] at hinit
  dsimp only at hinit
  split at hinit
  · exact Except.noConfusion hinit
  · split at hinit
    · exact Except.noConfusion hinit
    · injection hinit with hm
      have hmcp : m.cri_pix = cp := by rw [← hm]
      have hmcf : m.cri_fea = cf := by rw [← hm]
      have hmgt : m.gan_type = cfg.gan_type := by rw [← hm]
      have hmgw : m.l_gan_w = cfg.gan_weight := by rw [← hm]
      have hmee : m.edge_on = cfg.edge_enhance := by rw [← hm]
      have hmew : m.l_edge_w = cfg.edge_weight := by rw [← hm]
      have hcpnone : cfg.pixel_weight ≤ 0 → m.cri_pix = none := by
        intro hw
        rw [hmcp]
        unfold mkOptCriterion at hp
        rw [if_neg (not_lt.mpr hw)] at hp
        injection hp with h
        exact h.symm
      have hcfnone : cfg.feature_weight ≤ 0 → m.cri_fea = none := by
        intro hw
        rw [hmcf]
        unfold mkOptCriterion at hf
        rw [if_neg (not_lt.mpr hw)] at hf
        injection hf with h
        exact h.symm
      have hk : m.gan_type = "gan" ∨ m.gan_type = "ragan" ∨ m.gan_type = "wgan-qc" := by
        rw [hmgt]
        exact hknown
      obtain ⟨g, hgp, hglog, hgcp, hgnf, hgnd, hgee, hgpix, hgfea, hggan, hgtot⟩ :=
        gPhase_completes env m
          { st with dReqGrad := false, fakeH := env.netG env.var_L } (env.netG env.var_L) hk
      obtain ⟨hde, hdd, hdl, hdr, hdg, hdcp, hdnf, hdnd, hdee⟩ :=
        dPhase_known env m g.st (env.netG env.var_L) hk
      simp only [optimize_parameters]
      rw [if_pos ⟨h1, h2⟩]
      simp only [hgp, hde]
      refine ⟨trivial, ?_, ?_, ?_, ?_, ?_, ?_, ?_, ?_⟩
      · intro hpw
        refine ⟨?_, ?_⟩
        · rw [hdcp, hgcp, hcpnone hpw]
          simp
        · rw [getLog_setLog_ne _ _ _ _ (by decide), getLog_setLog_ne _ _ _ _ (by decide),
            getLog_setLog_ne _ _ _ _ (by decide), getLog_setLog_ne _ _ _ _ (by decide),
            getLog_setLog_ne _ _ _ _ (by decide), getLog_setLogOpt_ne _ _ _ _ (by decide),
            hgpix (hcpnone hpw), setLogOpt_none, hdl, hglog]
      · intro hfw
        refine ⟨?_, ?_⟩
        · rw [hdnf, hgnf, hcfnone hfw]
          simp
        · rw [getLog_setLog_ne _ _ _ _ (by decide), getLog_setLog_ne _ _ _ _ (by decide),
            getLog_setLog_ne _ _ _ _ (by decide), getLog_setLog_ne _ _ _ _ (by decide),
            getLog_setLog_ne _ _ _ _ (by decide), hgfea (hcfnone hfw), setLogOpt_none,
            getLog_setLogOpt_ne _ _ _ _ (by decide), hdl, hglog]
      · rw [hdnd]
        exact hgnd
      · rw [hasKey_getLog, getLog_setLog_ne _ _ _ _ (by decide),
          getLog_setLog_ne _ _ _ _ (by decide), getLog_setLog_ne _ _ _ _ (by decide),
          getLog_setLog_ne _ _ _ _ (by decide), getLog_setLog_self]
        rfl
      · intro h0
        rw [getLog_setLog_ne _ _ _ _ (by decide), getLog_setLog_ne _ _ _ _ (by decide),
          getLog_setLog_ne _ _ _ _ (by decide), getLog_setLog_ne _ _ _ _ (by decide),
          getLog_setLog_self, hggan (hmgw.trans h0)]
      · intro he
        rw [hdee, hgee, hmee, he]
        simp
      · rw [getLog_setLog_ne _ _ _ _ (by decide), getLog_setLog_ne _ _ _ _ (by decide),
          getLog_setLog_ne _ _ _ _ (by decide), getLog_setLog_ne _ _ _ _ (by decide),
          getLog_setLog_ne _ _ _ _ (by decide), getLog_setLogOpt_ne _ _ _ _ (by decide),
          getLog_setLogOpt_ne _ _ _ _ (by decide), hdl, hglog]
      · intro ha hb hc hd2
        exact hgtot (hcpnone ha) (hcfnone hb) (hmgw.trans hc) (hmew.trans hd2)

/-- C4 witness: the amended statement exercised at the concrete
configuration `cfg4` (all weights zero, edge enhancement on, standard
GAN), its constructed model `m4`, a fresh state, and the gated-on
step 1, with every inner hypothesis discharged. -/
theorem c4_witness :
    (optimize_parameters env1 m4 initState 1).2 = none ∧
    (optimize_parameters env1 m4 initState 1).1.criPixEvals = initState.criPixEvals ∧
    getLog (optimize_parameters env1 m4 initState 1).1.logDict "l_g_pix" =
      getLog initState.logDict "l_g_pix" ∧
    (optimize_parameters env1 m4 initState 1).1.nFEvals = initState.nFEvals ∧
    getLog (optimize_parameters env1 m4 initState 1).1.logDict "l_g_fea" =
      getLog initState.logDict "l_g_fea" ∧
    initState.nDEvalsG + 1 ≤ (optimize_parameters env1 m4 initState 1).1.nDEvalsG ∧
    hasKey (optimize_parameters env1 m4 initState 1).1.logDict "l_g_gan" = true ∧
    getLog (optimize_parameters env1 m4 initState 1).1.logDict "l_g_gan" = some 0 ∧
    (optimize_parameters env1 m4 initState 1).1.edgeEvals = initState.edgeEvals + 2 ∧
    getLog (optimize_parameters env1 m4 initState 1).1.logDict "l_g_edge" =
      getLog initState.logDict "l_g_edge" ∧
    (optimize_parameters env1 m4 initState 1).1.gTotal = 0 := by
  have h := c4_amended env1 cfg4 m4 initState 1 (by rfl) (Or.inl rfl) (by decide) (by decide)
  exact ⟨h.1, (h.2.1 (by norm_num [cfg4])).1, (h.2.1 (by norm_num [cfg4])).2,
    (h.2.2.1 (by norm_num [cfg4])).1, (h.2.2.1 (by norm_num [cfg4])).2,
    h.2.2.2.1, h.2.2.2.2.1, h.2.2.2.2.2.1 rfl, h.2.2.2.2.2.2.1 rfl,
    h.2.2.2.2.2.2.2.1,
    h.2.2.2.2.2.2.2.2 (by norm_num [cfg4]) (by norm_num [cfg4]) rfl rfl⟩

end SRGAN
